import Mathlib

/-!
Verification of the CulturalBot free-APIs integration
(`src/free-apis-integration.js`, with an earlier variant of the same classes
in `src/unnamed/part_000`).

The JavaScript provider classes are shallowly embedded as pure Lean
functions.  Conventions used throughout:

* Wall-clock times (`Date.now()`) are integers in milliseconds; the text
  produced by `new Date().toLocaleString()` is threaded in as an opaque
  `nowText : String` argument.
* A provider's in-memory `Map` cache is a function from keys to optional
  `CacheEntry` values; `Map.set` is pointwise functional update.
* An HTTP round trip (`fetch` + `response.ok` + `response.json()`) is
  modelled by a `FetchOutcome` value supplied by the environment: the call
  either throws (network error or JSON parse error), returns a non-2xx
  response, or succeeds with parsed data.
* JavaScript exception propagation is modelled with `Except JsError`: a
  code path that would let an exception escape to the caller returns
  `.error`, and a `try`/`catch` that swallows the exception turns it back
  into a normal `.ok` result.  The embedded provider entry points only
  ever build `.ok` values because every throwing operation in the source
  sits inside a `catch`.
* Decimal provider numbers (temperatures, coordinates, importance scores)
  are rationals; `Math.round` is `jsRound` (round half toward positive
  infinity, as in JavaScript).
* String operations used by the source (`toLowerCase`, `includes`,
  `split(',')`, `trim`) are re-implemented structurally on the character
  list of the string so that they compute by kernel reduction; their
  behaviour on the ASCII data involved matches JavaScript.
-/

namespace FreeApis

/-- JavaScript `Math.round`: round half toward positive infinity. -/
def jsRound (q : ℚ) : ℤ := ⌊q + 1/2⌋

/-- Whether `pat` is a leading segment of `s` (helper for `charsContain`). -/
def charsStartWith : List Char → List Char → Bool
  | _, [] => true
  | [], _ :: _ => false
  | c :: cs, d :: ds => c = d && charsStartWith cs ds

/-- Whether `pat` occurs contiguously inside `s` (helper for `jsIncludes`). -/
def charsContain (s pat : List Char) : Bool :=
  match s with
  | [] => pat.isEmpty
  | _ :: rest => charsStartWith s pat || charsContain rest pat

/-- JavaScript `s.includes(sub)`. -/
def jsIncludes (s sub : String) : Bool := charsContain s.data sub.data

/-- JavaScript `s.toLowerCase()` (ASCII case folding). -/
def jsToLower (s : String) : String := ⟨s.data.map Char.toLower⟩

/-- JavaScript `s.split(',')`; on the empty string it yields `[""]`. -/
def splitOnComma : List Char → List (List Char)
  | [] => [[]]
  | c :: rest =>
      if c = ',' then [] :: splitOnComma rest
      else
        match splitOnComma rest with
        | h :: t => (c :: h) :: t
        | [] => [[c]]

/-- JavaScript `s.trim()`: drop leading and trailing whitespace. -/
def jsTrim (l : List Char) : List Char :=
  ((l.dropWhile Char.isWhitespace).reverse.dropWhile Char.isWhitespace).reverse

/-- The value of `s.split(',')[0].trim()` as used by `PlacesAPI.extractLocationName`. -/
def firstSegmentTrimmed (s : String) : String :=
  ⟨jsTrim ((splitOnComma s.data).headD [])⟩

/-- One entry of a provider cache: `{ data: ..., timestamp: Date.now() }`. -/
structure CacheEntry (α : Type) where
  data : α
  timestamp : ℤ

/-- A provider's `Map` cache, keyed by `κ`. -/
def Cache (κ α : Type) : Type := κ → Option (CacheEntry α)

/-- JavaScript `Map.set`: functional pointwise update of a cache. -/
def Cache.set {κ α : Type} [DecidableEq κ] (c : Cache κ α) (k : κ) (e : CacheEntry α) :
    Cache κ α :=
  fun k2 => if k2 = k then some e else c k2

/-- An opaque JavaScript exception value. -/
inductive JsError where
  | js : String → JsError

/-- Outcome of one HTTP round trip: the request throws, responds with a
non-2xx status, or responds OK with parsed JSON payload `α`. -/
inductive FetchOutcome (α : Type) where
  | throws
  | notOk
  | ok : α → FetchOutcome α

/-! ## WeatherAPI (`src/free-apis-integration.js` lines 134-203) -/

/-- The fields of the OpenWeatherMap JSON payload that the source reads
(`data.main.temp/humidity/pressure`, `data.weather[0].description`,
`data.wind.speed`). -/
structure RawWeather where
  temp : ℚ
  description0 : String
  humidity : ℤ
  windSpeed : ℚ
  pressure : ℤ
deriving DecidableEq

/-- The normalized weather object the provider returns. -/
structure WeatherData where
  temperature : ℤ
  condition : String
  humidity : ℤ
  windSpeed : ℚ
  pressure : ℤ
  timestamp : String
  source : String
  isRealTime : Bool
deriving DecidableEq

namespace WeatherAPI

/-- Source constant `WeatherAPI.cacheTimeout = 10 * 60 * 1000`. -/
def cacheTimeout : ℤ := 10 * 60 * 1000

/-- Embedding of `WeatherAPI.getSimulatedWeather`: the demo fallback table. -/
def getSimulatedWeather (nowText city : String) : WeatherData :=
  { temperature :=
      if city = "tokyo" then 22
      else if city = "paris" then 16
      else if city = "mumbai" then 28
      else if city = "delhi" then 32
      else if city = "newyork" then 18
      else 20
    condition := "partly cloudy"
    humidity := 65
    windSpeed := 5.2
    pressure := 1013
    timestamp := nowText
    source := "Demo Data (Add API key for live)"
    isRealTime := false }

/-- Embedding of `WeatherAPI.getCurrentWeather`.  `enabled` is `API_CONFIG.weather.enabled`,
`live` the outcome of the one `fetch` the body may issue.  Returns the
weather object, the cache after the call, and whether the live branch was
entered (a network request was issued). -/
def getCurrentWeather (enabled : Bool) (cache : Cache String WeatherData)
    (now : ℤ) (nowText city : String) (live : FetchOutcome RawWeather) :
    Except JsError (WeatherData × Cache String WeatherData × Bool) :=
  let cacheKey := "weather_" ++ city
  let liveStep : Except JsError (WeatherData × Cache String WeatherData × Bool) :=
    if enabled then
      match live with
      | .throws => .ok (getSimulatedWeather nowText city, cache, true)
      | .notOk => .ok (getSimulatedWeather nowText city, cache, true)
      | .ok data =>
          let weatherData : WeatherData :=
            { temperature := jsRound data.temp
              condition := data.description0
              humidity := data.humidity
              windSpeed := data.windSpeed
              pressure := data.pressure
              timestamp := nowText
              source := "OpenWeatherMap API (LIVE)"
              isRealTime := true }
          .ok (weatherData, cache.set cacheKey ⟨weatherData, now⟩, true)
    else
      .ok (getSimulatedWeather nowText city, cache, false)
  match cache cacheKey with
  | some cached =>
      if now - cached.timestamp < cacheTimeout then .ok (cached.data, cache, false)
      else liveStep
  | none => liveStep

end WeatherAPI

/-! ## PlacesAPI (`src/free-apis-integration.js` lines 206-555) -/

/-- The fields of one raw Nominatim record that the source reads.  Nominatim
returns coordinates as decimal strings; they are modelled by their rational
value, with `none` for an absent or empty (falsy) field.  `namedetailsName`
is `none` when `namedetails` or `namedetails.name` is missing; a `some ""`
models a present but empty (falsy) name.  Absent string fields are `""`. -/
structure RawPlace where
  display_name : String
  lat : Option ℚ
  lon : Option ℚ
  namedetailsName : Option String
  name : String
  type_ : String
  class_ : String
  importance : Option ℚ
deriving DecidableEq

/-- The normalized place shape built in `searchPlaces`. -/
structure Place where
  name : String
  address : String
  lat : ℚ
  lon : ℚ
  type_ : String
  category : String
  importance : ℚ
  source : String
deriving DecidableEq

/-- A curated fallback entry from `getFallbackPlaces` (these have no
coordinates or importance score). -/
structure FallbackPlace where
  name : String
  address : String
  type_ : String
  source : String
deriving DecidableEq

/-- What `searchPlaces` hands back: either live normalized places or the
curated/demo fallback list (the two shapes differ in the source as well). -/
inductive PlacesResult where
  | live : List Place → PlacesResult
  | fallback : List FallbackPlace → PlacesResult
deriving DecidableEq

namespace PlacesAPI

/-- Source constant `PlacesAPI.cacheTimeout = 30 * 60 * 1000`. -/
def cacheTimeout : ℤ := 30 * 60 * 1000

/-- Embedding of `PlacesAPI.extractLocationName`: `namedetails.name` when truthy, else the
trimmed first comma-segment of `display_name` when `display_name` is truthy,
else `name || type || 'Unnamed Location'`. -/
def extractLocationName (place : RawPlace) : String :=
  let fromDisplay : String :=
    if place.display_name ≠ "" then firstSegmentTrimmed place.display_name
    else if place.name ≠ "" then place.name
    else if place.type_ ≠ "" then place.type_
    else "Unnamed Location"
  match place.namedetailsName with
  | some nd => if nd ≠ "" then nd else fromDisplay
  | none => fromDisplay

/-- The filter in `searchPlaces`:
`place.display_name && place.lat && place.lon` (all truthy). -/
def keepRawPlace (place : RawPlace) : Bool :=
  place.display_name ≠ "" && place.lat.isSome && place.lon.isSome

/-- The `.map` in `searchPlaces` normalizing one surviving raw record. -/
def normalizePlace (place : RawPlace) : Place :=
  { name := extractLocationName place
    address := place.display_name
    lat := place.lat.getD 0
    lon := place.lon.getD 0
    type_ :=
      if place.type_ ≠ "" then place.type_
      else if place.class_ ≠ "" then place.class_
      else "attraction"
    category := place.class_
    importance := place.importance.getD 0
    source := "OpenStreetMap (LIVE)" }

/-- The key built in `removeDuplicates`:
`lowercase(name) + "_" + round(lat*1000) + "_" + round(lon*1000)`. -/
def dedupKey (place : Place) : String :=
  jsToLower place.name ++ "_" ++ toString (jsRound (place.lat * 1000)) ++ "_" ++
    toString (jsRound (place.lon * 1000))

/-- Left-to-right filter of `removeDuplicates` with its `seen` set of keys. -/
def removeDuplicatesAux (seen : List String) : List Place → List Place
  | [] => []
  | p :: rest =>
      let key := dedupKey p
      if key ∈ seen then removeDuplicatesAux seen rest
      else p :: removeDuplicatesAux (key :: seen) rest

/-- Embedding of `PlacesAPI.removeDuplicates`: keep the first occurrence of each key. -/
def removeDuplicates (places : List Place) : List Place :=
  removeDuplicatesAux [] places

/-- Stable insertion of one place into a list sorted descending by
importance (models one step of the JavaScript stable `Array.sort` with
comparator `(a, b) => (b.importance || 0) - (a.importance || 0)`). -/
def insertByImportance (p : Place) : List Place → List Place
  | [] => [p]
  | q :: rest =>
      if q.importance < p.importance then p :: q :: rest
      else q :: insertByImportance p rest

/-- Stable sort descending by importance (the `sort` in `searchPlaces`). -/
def sortByImportance : List Place → List Place
  | [] => []
  | p :: rest => insertByImportance p (sortByImportance rest)

/-- The curated `cityData` query table inside `generateSearchQueries`:
`cityData[city]` then `cityQueries[category]`. -/
def cityQueries (city category : String) : Option (List String) :=
  if city = "delhi" then
    if category = "culture" then
      some ["Red Fort Delhi", "Qutub Minar Delhi", "Humayun Tomb Delhi",
        "Lotus Temple Delhi", "National Museum Delhi"]
    else if category = "tourist" then
      some ["India Gate Delhi", "Red Fort Delhi", "Lotus Temple Delhi",
        "Akshardham Temple Delhi"]
    else if category = "food" then
      some ["restaurants Delhi", "popular restaurants Delhi", "local food Delhi",
        "best places to eat Delhi"]
    else if category = "shopping" then
      some ["markets Delhi", "famous shopping markets Delhi",
        "shopping districts Delhi", "local bazaars Delhi"]
    else none
  else if city = "tokyo" then
    if category = "culture" then
      some ["Senso-ji Temple Tokyo", "Meiji Shrine Tokyo", "Tokyo National Museum",
        "Imperial Palace Tokyo"]
    else if category = "tourist" then
      some ["Tokyo Tower", "Tokyo Skytree", "Shibuya Crossing Tokyo", "Asakusa Tokyo"]
    else if category = "food" then
      some ["restaurants Tokyo", "Tsukiji Market Tokyo", "best sushi Tokyo",
        "local food Tokyo"]
    else if category = "shopping" then
      some ["Shibuya shopping district Tokyo", "Harajuku shopping Tokyo",
        "Ginza Tokyo markets", "Akihabara Tokyo"]
    else none
  else if city = "mumbai" then
    if category = "culture" then
      some ["Gateway of India Mumbai", "Chhatrapati Shivaji Terminus Mumbai",
        "Elephanta Caves Mumbai"]
    else if category = "tourist" then
      some ["Marine Drive Mumbai", "Gateway of India Mumbai", "Juhu Beach Mumbai"]
    else if category = "food" then
      some ["restaurants Mumbai", "Mohammed Ali Road Mumbai",
        "best street food Mumbai", "local food Mumbai"]
    else if category = "shopping" then
      some ["Linking Road Mumbai", "Colaba Causeway Mumbai", "Crawford Market Mumbai",
        "Fashion Street Mumbai"]
    else none
  else if city = "paris" then
    if category = "culture" then
      some ["Louvre Museum Paris", "Notre Dame Paris", "Musée d\x27Orsay Paris",
        "Sainte-Chapelle Paris"]
    else if category = "tourist" then
      some ["Eiffel Tower Paris", "Arc de Triomphe Paris", "Champs-Élysées Paris",
        "Montmartre Paris"]
    else if category = "food" then
      some ["restaurants Paris", "Le Marais Paris food",
        "Latin Quarter Paris restaurants", "best bistros Paris"]
    else if category = "shopping" then
      some ["Champs-Élysées Paris shops", "Le Marais Paris markets",
        "Galeries Lafayette Paris", "Rue Saint-Honoré Paris"]
    else none
  else if city = "newyork" then
    if category = "culture" then
      some ["Metropolitan Museum New York", "MoMA New York",
        "Guggenheim Museum New York"]
    else if category = "tourist" then
      some ["Statue of Liberty New York", "Central Park New York",
        "Times Square New York", "Brooklyn Bridge New York"]
    else if category = "food" then
      some ["restaurants New York", "Little Italy New York", "Chinatown New York",
        "best pizza New York"]
    else if category = "shopping" then
      some ["Fifth Avenue New York", "SoHo New York", "Chelsea Market New York",
        "Union Square Market New York"]
    else none
  else if city = "london" then
    if category = "culture" then
      some ["British Museum London", "Tate Modern London", "National Gallery London",
        "Westminster Abbey London"]
    else if category = "tourist" then
      some ["Big Ben London", "Tower Bridge London", "London Eye",
        "Buckingham Palace London"]
    else if category = "food" then
      some ["restaurants London", "Borough Market London", "Camden Market London food",
        "Covent Garden London"]
    else if category = "shopping" then
      some ["Oxford Street London", "Camden Market London shops",
        "Portobello Road London", "Covent Garden Market London"]
    else none
  else if city = "istanbul" then
    if category = "culture" then
      some ["Hagia Sophia Istanbul", "Blue Mosque Istanbul", "Topkapi Palace Istanbul"]
    else if category = "tourist" then
      some ["Galata Tower Istanbul", "Bosphorus Bridge Istanbul",
        "Taksim Square Istanbul"]
    else if category = "food" then
      some ["restaurants Istanbul", "Grand Bazaar Istanbul food",
        "Eminönü Istanbul restaurants", "local food Istanbul"]
    else if category = "shopping" then
      some ["Grand Bazaar Istanbul", "Istinye Park Istanbul", "Spice Bazaar Istanbul",
        "Nişantaşı Istanbul"]
    else none
  else if city = "barcelona" then
    if category = "culture" then
      some ["Sagrada Familia Barcelona", "Park Güell Barcelona",
        "Picasso Museum Barcelona"]
    else if category = "tourist" then
      some ["Casa Batlló Barcelona", "Gothic Quarter Barcelona", "La Rambla Barcelona"]
    else if category = "food" then
      some ["restaurants Barcelona", "Boquería Market Barcelona",
        "Gothic Quarter Barcelona food", "local tapas Barcelona"]
    else if category = "shopping" then
      some ["Passeig de Gràcia Barcelona", "Gothic Quarter Barcelona shops",
        "El Born Barcelona markets"]
    else none
  else none

/-- The part of `generateSearchQueries` before the unconditional final
append: curated entries (up to 5) when present, else the generic templated
`switch` on the category. -/
def searchQueriesBase (city category : String) : List String :=
  let queries : List String :=
    match cityQueries city category with
    | some qs => qs.take 5
    | none => []
  if queries = [] then
    if category = "culture" then
      [s! "museums {city}", s! "temples {city}", s! "heritage sites {city}",
        s! "art galleries {city}"]
    else if category = "food" then
      [s! "restaurants {city}", s! "food markets {city}", s! "local cuisine {city}",
        s! "best places to eat {city}"]
    else if category = "shopping" then
      [s! "famous markets {city}", s! "shopping districts {city}",
        s! "local bazaars {city}", s! "markets {city}"]
    else if category = "places" ∨ category = "tourist" then
      [s! "tourist attractions {city}", s! "landmarks {city}", s! "monuments {city}",
        s! "famous places {city}"]
    else
      [s! "{category} in {city}", s! "top {category} {city}"]
  else queries

/-- Embedding of `PlacesAPI.generateSearchQueries`: curated or generic queries, then the
two templated queries appended unconditionally, then `slice(0, 5)`. -/
def generateSearchQueries (city category : String) : List String :=
  let queries : List String :=
    match cityQueries city category with
    | some qs => qs.take 5
    | none => []
  let queries : List String :=
    if queries = [] then
      if category = "culture" then
        [s! "museums {city}", s! "temples {city}", s! "heritage sites {city}",
          s! "art galleries {city}"]
      else if category = "food" then
        [s! "restaurants {city}", s! "food markets {city}", s! "local cuisine {city}",
          s! "best places to eat {city}"]
      else if category = "shopping" then
        [s! "famous markets {city}", s! "shopping districts {city}",
          s! "local bazaars {city}", s! "markets {city}"]
      else if category = "places" ∨ category = "tourist" then
        [s! "tourist attractions {city}", s! "landmarks {city}", s! "monuments {city}",
          s! "famous places {city}"]
      else
        [s! "{category} in {city}", s! "top {category} {city}"]
    else queries
  (queries ++ [s! "{category} in {city}", s! "top {category} {city}"]).take 5

/-- Shorthand for one `getFallbackPlaces` table entry; every entry in the
source carries `source: 'Demo Data (API failed)'`. -/
def demoPlace (name address type_ : String) : FallbackPlace :=
  ⟨name, address, type_, "Demo Data (API failed)"⟩

/-- The `delhi` object of the `fallbacks` table in `getFallbackPlaces`. -/
def delhiFallbackPlaces (category : String) : Option (List FallbackPlace) :=
  if category = "culture" then
    some [demoPlace "Red Fort" "Netaji Subhash Marg, Lal Qila, Delhi" "historical_monument",
      demoPlace "Qutub Minar" "Mehrauli, Delhi" "unesco_heritage",
      demoPlace "Humayun\x27s Tomb" "Mathura Road, Delhi" "mughal_architecture"]
  else if category = "tourist" then
    some [demoPlace "India Gate" "Rajpath, New Delhi" "war_memorial",
      demoPlace "Lotus Temple" "Lotus Temple Road, Delhi" "bahai_temple",
      demoPlace "Akshardham Temple" "Noida Mor, Delhi" "hindu_temple"]
  else if category = "shopping" then
    some [demoPlace "Connaught Place" "Connaught Place, New Delhi" "shopping_district",
      demoPlace "Khan Market" "Khan Market, New Delhi" "market"]
  else if category = "food" then
    some [demoPlace "Chandni Chowk" "Chandni Chowk, Old Delhi" "food_street",
      demoPlace "Paranthe Wali Gali" "Chandni Chowk, Delhi" "food_lane"]
  else none

/-- The `tokyo` object of the `fallbacks` table in `getFallbackPlaces`. -/
def tokyoFallbackPlaces (category : String) : Option (List FallbackPlace) :=
  if category = "culture" then
    some [demoPlace "Senso-ji Temple" "Asakusa, Tokyo" "buddhist_temple",
      demoPlace "Meiji Shrine" "Shibuya, Tokyo" "shinto_shrine",
      demoPlace "Tokyo National Museum" "Ueno, Tokyo" "museum"]
  else if category = "tourist" then
    some [demoPlace "Tokyo Tower" "Minato, Tokyo" "landmark",
      demoPlace "Tokyo Skytree" "Sumida, Tokyo" "broadcasting_tower",
      demoPlace "Shibuya Crossing" "Shibuya, Tokyo" "intersection"]
  else if category = "shopping" then
    some [demoPlace "Shibuya" "Shibuya, Tokyo" "shopping_district",
      demoPlace "Harajuku" "Harajuku, Tokyo" "fashion_district"]
  else if category = "food" then
    some [demoPlace "Tsukiji Outer Market" "Chuo, Tokyo" "fish_market",
      demoPlace "Ramen Yokocho" "Shinjuku, Tokyo" "ramen_alley"]
  else none

/-- The `mumbai` object of the `fallbacks` table in `getFallbackPlaces`. -/
def mumbaiFallbackPlaces (category : String) : Option (List FallbackPlace) :=
  if category = "culture" then
    some [demoPlace "Gateway of India" "Apollo Bunder, Mumbai" "historical_monument",
      demoPlace "Chhatrapati Shivaji Terminus" "Fort, Mumbai" "railway_station"]
  else if category = "tourist" then
    some [demoPlace "Marine Drive" "Marine Drive, Mumbai" "promenade",
      demoPlace "Juhu Beach" "Juhu, Mumbai" "beach"]
  else if category = "shopping" then
    some [demoPlace "Linking Road" "Bandra West, Mumbai" "shopping_street",
      demoPlace "Colaba Causeway" "Colaba, Mumbai" "shopping_street"]
  else if category = "food" then
    some [demoPlace "Mohammed Ali Road" "Mohammed Ali Road, Mumbai" "food_street"]
  else none

/-- The `paris` object of the `fallbacks` table in `getFallbackPlaces`. -/
def parisFallbackPlaces (category : String) : Option (List FallbackPlace) :=
  if category = "culture" then
    some [demoPlace "Louvre Museum" "Rue de Rivoli, Paris" "art_museum",
      demoPlace "Notre-Dame" "Île de la Cité, Paris" "cathedral"]
  else if category = "tourist" then
    some [demoPlace "Eiffel Tower" "Champ de Mars, Paris" "iron_tower",
      demoPlace "Arc de Triomphe" "Place Charles de Gaulle, Paris" "triumphal_arch"]
  else if category = "shopping" then
    some [demoPlace "Champs-Élysées" "Champs-Élysées, Paris" "shopping_avenue"]
  else if category = "food" then
    some [demoPlace "Latin Quarter" "Latin Quarter, Paris" "dining_district"]
  else none

/-- The `newyork` object of the `fallbacks` table in `getFallbackPlaces`. -/
def newyorkFallbackPlaces (category : String) : Option (List FallbackPlace) :=
  if category = "culture" then
    some [demoPlace "Metropolitan Museum" "Upper East Side, New York" "art_museum",
      demoPlace "MoMA" "Midtown Manhattan, New York" "modern_art_museum"]
  else if category = "tourist" then
    some [demoPlace "Statue of Liberty" "Liberty Island, New York" "statue",
      demoPlace "Central Park" "Manhattan, New York" "urban_park"]
  else if category = "shopping" then
    some [demoPlace "Fifth Avenue" "Fifth Avenue, Manhattan" "shopping_avenue"]
  else if category = "food" then
    some [demoPlace "Little Italy" "Little Italy, Manhattan" "ethnic_neighborhood"]
  else none

/-- The `london` object of the `fallbacks` table in `getFallbackPlaces`. -/
def londonFallbackPlaces (category : String) : Option (List FallbackPlace) :=
  if category = "culture" then
    some [demoPlace "British Museum" "Great Russell Street, London" "history_museum",
      demoPlace "Tate Modern" "Bankside, London" "art_gallery"]
  else if category = "tourist" then
    some [demoPlace "Big Ben" "Westminster, London" "clock_tower",
      demoPlace "Tower Bridge" "Tower Hamlets, London" "bridge"]
  else if category = "shopping" then
    some [demoPlace "Oxford Street" "Oxford Street, London" "shopping_street"]
  else if category = "food" then
    some [demoPlace "Borough Market" "Southwark, London" "food_market"]
  else none

/-- The `istanbul` object of the `fallbacks` table in `getFallbackPlaces`. -/
def istanbulFallbackPlaces (category : String) : Option (List FallbackPlace) :=
  if category = "culture" then
    some [demoPlace "Hagia Sophia" "Sultanahmet, Istanbul" "historical_building",
      demoPlace "Topkapi Palace" "Sultanahmet, Istanbul" "palace_museum"]
  else if category = "tourist" then
    some [demoPlace "Blue Mosque" "Sultanahmet, Istanbul" "mosque",
      demoPlace "Galata Tower" "Galata, Istanbul" "medieval_tower"]
  else if category = "shopping" then
    some [demoPlace "Grand Bazaar" "Beyazıt, Istanbul" "covered_market"]
  else if category = "food" then
    some [demoPlace "Eminönü" "Eminönü, Istanbul" "food_district"]
  else none

/-- The `barcelona` object of the `fallbacks` table in `getFallbackPlaces`. -/
def barcelonaFallbackPlaces (category : String) : Option (List FallbackPlace) :=
  if category = "culture" then
    some [demoPlace "Sagrada Familia" "Sagrada Família, Barcelona" "basilica",
      demoPlace "Park Güell" "Gràcia, Barcelona" "public_park"]
  else if category = "tourist" then
    some [demoPlace "Casa Batlló" "Passeig de Gràcia, Barcelona" "modernist_building",
      demoPlace "Gothic Quarter" "Ciutat Vella, Barcelona" "historic_district"]
  else if category = "shopping" then
    some [demoPlace "Passeig de Gràcia" "Passeig de Gràcia, Barcelona" "shopping_avenue"]
  else if category = "food" then
    some [demoPlace "Boquería Market" "La Rambla, Barcelona" "public_market"]
  else none

/-- The outer `fallbacks[city]` lookup of `getFallbackPlaces`. -/
def fallbackPlacesTable (city : String) :
    Option (String → Option (List FallbackPlace)) :=
  if city = "delhi" then some delhiFallbackPlaces
  else if city = "tokyo" then some tokyoFallbackPlaces
  else if city = "mumbai" then some mumbaiFallbackPlaces
  else if city = "paris" then some parisFallbackPlaces
  else if city = "newyork" then some newyorkFallbackPlaces
  else if city = "london" then some londonFallbackPlaces
  else if city = "istanbul" then some istanbulFallbackPlaces
  else if city = "barcelona" then some barcelonaFallbackPlaces
  else none

/-- The generic two-entry fallback at the end of `getFallbackPlaces`. -/
def genericFallbackPlaces (city category : String) : List FallbackPlace :=
  [demoPlace ("Popular " ++ category ++ " destination in " ++ city)
      (city ++ " city center") category,
    demoPlace ("Local " ++ category ++ " spot in " ++ city)
      (city ++ " downtown area") category]

/-- Embedding of `PlacesAPI.getFallbackPlaces`: the curated per-city per-category demo
list when `fallbacks[city]` and `cityFallbacks[category]` both exist, else
the generic two-entry fallback. -/
def getFallbackPlaces (city category : String) : List FallbackPlace :=
  match fallbackPlacesTable city with
  | some cityFallbacks =>
      match cityFallbacks category with
      | some places => places
      | none => genericFallbackPlaces city category
  | none => genericFallbackPlaces city category

/-- The body of the per-query loop in `searchPlaces` plus the
dedupe/sort/truncate steps: each query's `fetch` either succeeds (filter and
normalize its records), returns a non-2xx response (no records appended), or
throws (swallowed by the per-query `catch`); the batches are concatenated in
query order. -/
def searchPlacesLive (world : String → FetchOutcome (List RawPlace))
    (city category : String) : List Place :=
  let allPlaces : List Place :=
    ((generateSearchQueries city category).map (fun query =>
      match world query with
      | .ok data => (data.filter keepRawPlace).map normalizePlace
      | .notOk => []
      | .throws => [])).flatten
  (sortByImportance (removeDuplicates allPlaces)).take 5

/-- Embedding of `PlacesAPI.searchPlaces`.  `world` gives the outcome of the Nominatim
request for each query string.  Returns the result, the cache after the
call, and whether the live branch was entered. -/
def searchPlaces (cache : Cache String (List Place)) (now : ℤ)
    (city category : String) (world : String → FetchOutcome (List RawPlace)) :
    Except JsError (PlacesResult × Cache String (List Place) × Bool) :=
  let cacheKey := "places_" ++ city ++ "_" ++ category
  let liveStep : Except JsError (PlacesResult × Cache String (List Place) × Bool) :=
    let sortedPlaces := searchPlacesLive world city category
    if sortedPlaces ≠ [] then
      .ok (.live sortedPlaces, cache.set cacheKey ⟨sortedPlaces, now⟩, true)
    else
      .ok (.fallback (getFallbackPlaces city category), cache, true)
  match cache cacheKey with
  | some cached =>
      if now - cached.timestamp < cacheTimeout then .ok (.live cached.data, cache, false)
      else liveStep
  | none => liveStep

end PlacesAPI

/-! ## AIAPI (`src/free-apis-integration.js` lines 558-659) -/

/-- The `{ intent, confidence }` object of the keyword classifier. -/
structure IntentResult where
  intent : String
  confidence : ℚ
deriving DecidableEq

namespace AIAPI

/-- Embedding of `AIAPI.getSimulatedResponse`: keyword substring rules tested against the
lowercased message in fixed priority order; the first match wins with
confidence 0.9, otherwise the general fallback with confidence 0.7. -/
def getSimulatedResponse (message : String) : IntentResult :=
  let lower := jsToLower message
  if jsIncludes lower "weather" || jsIncludes lower "temperature" ||
      jsIncludes lower "climate" || jsIncludes lower "forecast" then
    ⟨"weather", 0.9⟩
  else if jsIncludes lower "food" || jsIncludes lower "restaurant" ||
      jsIncludes lower "eat" || jsIncludes lower "dining" ||
      jsIncludes lower "cuisine" || jsIncludes lower "lunch" ||
      jsIncludes lower "dinner" || jsIncludes lower "breakfast" ||
      jsIncludes lower "cafe" || jsIncludes lower "local food" ||
      jsIncludes lower "street food" then
    ⟨"food", 0.9⟩
  else if jsIncludes lower "culture" || jsIncludes lower "museum" ||
      jsIncludes lower "temple" || jsIncludes lower "heritage" ||
      jsIncludes lower "historical" || jsIncludes lower "monument" ||
      jsIncludes lower "cultural sites" || jsIncludes lower "art" ||
      jsIncludes lower "gallery" || jsIncludes lower "cultural attractions" then
    ⟨"culture", 0.9⟩
  else if jsIncludes lower "shopping" || jsIncludes lower "shop" ||
      jsIncludes lower "market" || jsIncludes lower "mall" ||
      jsIncludes lower "buy" || jsIncludes lower "store" ||
      jsIncludes lower "shopping area" || jsIncludes lower "boutique" ||
      jsIncludes lower "bazaar" || jsIncludes lower "shopping district" then
    ⟨"shopping", 0.9⟩
  else if jsIncludes lower "event" || jsIncludes lower "festival" ||
      jsIncludes lower "concert" || jsIncludes lower "performance" ||
      jsIncludes lower "happening" || jsIncludes lower "activities" ||
      jsIncludes lower "entertainment" || jsIncludes lower "nightlife" ||
      jsIncludes lower "what to do" then
    ⟨"events", 0.9⟩
  else if jsIncludes lower "clothing" || jsIncludes lower "traditional" ||
      jsIncludes lower "wear" || jsIncludes lower "dress" ||
      jsIncludes lower "costume" || jsIncludes lower "attire" ||
      jsIncludes lower "kimono" || jsIncludes lower "saree" ||
      jsIncludes lower "traditional wear" || jsIncludes lower "cultural clothing" then
    ⟨"clothing", 0.9⟩
  else if jsIncludes lower "places" || jsIncludes lower "attractions" ||
      jsIncludes lower "landmarks" || jsIncludes lower "visit" ||
      jsIncludes lower "sightseeing" || jsIncludes lower "tourist" ||
      jsIncludes lower "interesting places" || jsIncludes lower "must see" ||
      jsIncludes lower "famous places" || jsIncludes lower "tourist attractions" then
    ⟨"places", 0.9⟩
  else if jsIncludes lower "local" || jsIncludes lower "recommendation" ||
      jsIncludes lower "guide" || jsIncludes lower "comprehensive" ||
      jsIncludes lower "local guide" || jsIncludes lower "insider tips" ||
      jsIncludes lower "what locals do" || jsIncludes lower "local experience" ||
      jsIncludes lower "comprehensive guide" then
    ⟨"local", 0.9⟩
  else
    ⟨"general", 0.7⟩

end AIAPI

/-! ## NewsAPI (`src/free-apis-integration.js` lines 1355-1410) -/

/-- The fields of one NewsAPI article the source reads. -/
structure RawArticle where
  title : String
  description : String
  url : String
  publishedAt : String
  sourceName : String
deriving DecidableEq

/-- A normalized event item.  Live articles fill every field; the simulated
demo event carries no `url`/`publishedAt` (absent fields are `none`). -/
structure EventItem where
  title : String
  description : String
  url : Option String
  publishedAt : Option String
  source : String
deriving DecidableEq

namespace NewsAPI

/-- Source constant `NewsAPI.cacheTimeout = 60 * 60 * 1000`. -/
def cacheTimeout : ℤ := 60 * 60 * 1000

/-- Embedding of `NewsAPI.getSimulatedEvents`. -/
def getSimulatedEvents (city : String) : List EventItem :=
  [{ title := "Local Cultural Festival in " ++ city
     description := "Traditional music and food festival happening this weekend"
     url := none
     publishedAt := none
     source := "Local Events (Demo)" }]

/-- Embedding of `NewsAPI.getLocalEvents`.  `enabled` is `API_CONFIG.news.enabled`. -/
def getLocalEvents (enabled : Bool) (cache : Cache String (List EventItem))
    (now : ℤ) (city : String) (live : FetchOutcome (List RawArticle)) :
    Except JsError (List EventItem × Cache String (List EventItem) × Bool) :=
  let cacheKey := "news_" ++ city
  let liveStep : Except JsError (List EventItem × Cache String (List EventItem) × Bool) :=
    if enabled then
      match live with
      | .throws => .ok (getSimulatedEvents city, cache, true)
      | .notOk => .ok (getSimulatedEvents city, cache, true)
      | .ok articles =>
          let events := articles.map (fun article =>
            { title := article.title
              description := article.description
              url := some article.url
              publishedAt := some article.publishedAt
              source := article.sourceName : EventItem })
          .ok (events, cache.set cacheKey ⟨events, now⟩, true)
    else
      .ok (getSimulatedEvents city, cache, false)
  match cache cacheKey with
  | some cached =>
      if now - cached.timestamp < cacheTimeout then .ok (cached.data, cache, false)
      else liveStep
  | none => liveStep

end NewsAPI

/-! ## TraditionalClothingAPI (`src/free-apis-integration.js` lines 664-914) -/

/-- One entry of `TraditionalClothingAPI.clothingDatabase`.  The Paris
entry has no `styling_tips`/`accessories` fields; absent fields are `none`. -/
structure ClothingItem where
  name : String
  type_ : String
  description : String
  occasions : List String
  colors : List String
  price_range : String
  rental_available : Bool
  cultural_significance : String
  where_to_buy : List String
  styling_tips : Option String
  accessories : Option (List String)
deriving DecidableEq

/-- A shopping-area record (only the generic info populates these). -/
structure ShoppingArea where
  area : String
  specialty : String
  best_for : String
deriving DecidableEq

/-- One styling service produced by `findStylingServices`. -/
structure StylingService where
  name : String
  address : String
  type_ : String
  source : String
deriving DecidableEq

/-- The per-city cultural context object of `getCulturalContext`. -/
structure CulturalContext where
  best_seasons : String
  cultural_etiquette : String
  photo_opportunities : String
  learning_opportunities : String
deriving DecidableEq

/-- One generic clothing entry of `getGenericClothingInfo`. -/
structure GenericClothingItem where
  name : String
  description : String
  where_to_buy : List String
  recommendation : String
deriving DecidableEq

/-- The `cultural_context` object of `getGenericClothingInfo`. -/
structure GenericContext where
  recommendation : String
deriving DecidableEq

/-- The full result object assembled for a city present in the database. -/
structure FullClothingResult where
  traditional : List ClothingItem
  shopping_areas : List ShoppingArea
  styling_services : List StylingService
  rental_options : List ClothingItem
  cultural_context : CulturalContext
deriving DecidableEq

/-- The generic info object for a city absent from the database. -/
structure GenericClothingInfo where
  traditional : List GenericClothingItem
  shopping_areas : List ShoppingArea
  cultural_context : GenericContext
deriving DecidableEq

/-- What `getTraditionalClothing` hands back: the full per-city result or
the generic info (the two object shapes differ in the source as well). -/
inductive ClothingResult where
  | full : FullClothingResult → ClothingResult
  | generic : GenericClothingInfo → ClothingResult
deriving DecidableEq

namespace TraditionalClothingAPI

/-- Source constant `TraditionalClothingAPI.cacheTimeout = 60 * 60 * 1000`. -/
def cacheTimeout : ℤ := 60 * 60 * 1000

/-- Embedding of `TraditionalClothingAPI.clothingDatabase`: one list of items per city
(in this rewrite each city maps directly to an array of items). -/
def clothingDatabase (city : String) : Option (List ClothingItem) :=
  if city = "tokyo" then some [
    { name := "Kimono"
      type_ := "formal_wear"
      description := "Traditional Japanese robe with wide sleeves and a broad sash (obi)"
      occasions := ["tea ceremonies", "festivals", "weddings", "formal events"]
      colors := ["deep blue", "cherry blossom pink", "gold", "burgundy"]
      price_range := "¥15,000 - ¥500,000"
      rental_available := true
      cultural_significance := "Symbol of Japanese culture and tradition"
      where_to_buy := ["Asakusa", "Ginza", "Kyoto (day trip)"]
      styling_tips := some "Wear with proper undergarments (juban), choose colors based on season"
      accessories := some ["obi (sash)", "geta (wooden sandals)", "hair ornaments"] },
    { name := "Yukata"
      type_ := "casual_wear"
      description := "Lightweight cotton kimono, perfect for summer festivals"
      occasions := ["summer festivals", "fireworks displays", "hot springs"]
      colors := ["indigo blue", "white", "floral patterns"]
      price_range := "¥3,000 - ¥20,000"
      rental_available := true
      cultural_significance := "Casual traditional wear for summer events"
      where_to_buy := ["Shibuya", "Harajuku", "department stores"]
      styling_tips := some "Wear with simple obi, perfect for beginners"
      accessories := some ["simple obi", "sandals", "hand fan"] }]
  else if city = "mumbai" then some [
    { name := "Saree"
      type_ := "formal_wear"
      description := "Elegant draped garment, symbol of Indian femininity"
      occasions := ["weddings", "festivals", "formal events", "office wear"]
      colors := ["vibrant reds", "golden yellow", "royal blue", "emerald green"]
      price_range := "₹500 - ₹50,000+"
      rental_available := true
      cultural_significance := "Represents Indian tradition and elegance"
      where_to_buy := ["Linking Road", "Colaba Causeway", "Crawford Market"]
      styling_tips := some "Choose blouse design carefully, draping style varies by region"
      accessories := some ["jewelry", "bangles", "bindi", "traditional footwear"] }]
  else if city = "paris" then some [
    { name := "French Provincial Dress"
      type_ := "regional_wear"
      description := "Traditional French regional costume with embroidered details"
      occasions := ["folk festivals", "cultural events", "themed parties"]
      colors := ["white with colorful embroidery", "blue", "red"]
      price_range := "€50 - €300"
      rental_available := true
      cultural_significance := "Represents French regional heritage"
      where_to_buy := ["Le Marais", "antique shops", "costume stores"]
      styling_tips := none
      accessories := none }]
  else if city = "istanbul" then some [
    { name := "Şalvar"
      type_ := "traditional_wear"
      description := "Baggy trousers worn traditionally by both men and women"
      occasions := ["daily wear", "cultural festivals"]
      colors := ["white", "earth tones", "bright patterns"]
      price_range := "₺100 - ₺1,000"
      rental_available := false
      cultural_significance := "Part of traditional Ottoman attire"
      where_to_buy := ["Grand Bazaar", "Kadıköy Market"]
      styling_tips := some "Pair with embroidered shirts or vests"
      accessories := some ["fez hats", "handcrafted belts"] }]
  else if city = "new_york" then some [
    { name := "Modern Urbanwear"
      type_ := "casual_wear"
      description := "Fashion-forward clothing inspired by the city’s diversity"
      occasions := ["daily wear", "parties"]
      colors := ["black", "white", "bold colors"]
      price_range := "$50 - $1,000+"
      rental_available := true
      cultural_significance := "Representation of New York’s dynamic fashion scene"
      where_to_buy := ["SoHo", "Brooklyn boutiques"]
      styling_tips := some "Mix vintage and contemporary pieces"
      accessories := some ["caps", "sneakers", "statement jewelry"] }]
  else if city = "london" then some [
    { name := "Savile Row Suit"
      type_ := "formal_wear"
      description := "Tailor-made bespoke suits famous worldwide"
      occasions := ["business", "formal events"]
      colors := ["navy", "gray", "black"]
      price_range := "£500 - £5,000+"
      rental_available := false
      cultural_significance := "Iconic British tailoring tradition"
      where_to_buy := ["Savile Row"]
      styling_tips := some "Complement with crisp shirts and classic ties"
      accessories := some ["cufflinks", "leather shoes"] }]
  else if city = "delhi" then some [
    { name := "Kurta Pajama"
      type_ := "formal_wear"
      description := "Traditional men\x27s outfit made of long shirt and pants"
      occasions := ["festivals", "weddings", "formal occasions"]
      colors := ["white", "cream", "bright colors"]
      price_range := "₹800 - ₹10,000"
      rental_available := true
      cultural_significance := "Essential traditional wear for Indian men"
      where_to_buy := ["Chandni Chowk", "Janpath Market"]
      styling_tips := some "Choose embroidered fabrics for weddings"
      accessories := some ["mojari shoes", "shawls"] }]
  else if city = "barcelona" then some [
    { name := "Catalan Traditional Dress"
      type_ := "regional_wear"
      description := "Colorful traditional costume with symbolic designs"
      occasions := ["festivals", "cultural events"]
      colors := ["red", "yellow", "black"]
      price_range := "€30 - €200"
      rental_available := true
      cultural_significance := "Represents Catalan identity"
      where_to_buy := ["La Rambla", "local markets"]
      styling_tips := some "Wear with matching accessories like sashes"
      accessories := some ["berets", "woven belts"] }]
  else none

/-- Embedding of `TraditionalClothingAPI.getCulturalContext`. -/
def getCulturalContext (city : String) : CulturalContext :=
  if city = "tokyo" then
    { best_seasons := "Spring (cherry blossom) and autumn festivals"
      cultural_etiquette := "Respect traditional dressing rules, consider professional dressing services"
      photo_opportunities := "Temple visits, traditional gardens, cultural districts"
      learning_opportunities := "Kimono dressing classes available in Asakusa and Kyoto" }
  else if city = "mumbai" then
    { best_seasons := "Festival seasons (Diwali, Navratri) and wedding season (winter)"
      cultural_etiquette := "Color significance matters, regional draping styles vary"
      photo_opportunities := "Heritage buildings, temples, cultural festivals"
      learning_opportunities := "Saree draping workshops, jewelry styling sessions" }
  else
    { best_seasons := "Check local cultural calendar"
      cultural_etiquette := "Research local customs and traditions"
      photo_opportunities := "Cultural sites and traditional markets"
      learning_opportunities := "Local cultural centers and workshops" }

/-- Embedding of `TraditionalClothingAPI.getGenericClothingInfo`. -/
def getGenericClothingInfo (_city : String) : GenericClothingInfo :=
  { traditional := [
      { name := "Local Traditional Wear"
        description := "Explore local markets and cultural centers for traditional clothing"
        where_to_buy := ["local markets", "cultural districts", "heritage areas"]
        recommendation := "Visit local museums and cultural centers to learn about traditional dress" }]
    shopping_areas := [
      { area := "Cultural Districts"
        specialty := "Traditional and cultural items"
        best_for := "authentic local experience" }]
    cultural_context :=
      { recommendation := "Research local customs and visit cultural centers for authentic information" } }

/-- Embedding of `TraditionalClothingAPI.findStylingServices`: maps the outcome of
`PlacesAPI.searchPlaces(city, 'clothing')` into styling-service records; the
surrounding `try`/`catch` turns any exception into `[]`. -/
def findStylingServices (placesOutcome : Except JsError PlacesResult) :
    List StylingService :=
  match placesOutcome with
  | .error _ => []
  | .ok (.live places) =>
      places.map (fun place =>
        { name := place.name, address := place.address
          type_ := "styling_service", source := "OpenStreetMap" })
  | .ok (.fallback places) =>
      places.map (fun place =>
        { name := place.name, address := place.address
          type_ := "styling_service", source := "OpenStreetMap" })

/-- Embedding of `TraditionalClothingAPI.getTraditionalClothing`.  The cache key
`clothing_${city}_${JSON.stringify(preferences)}` is modelled by the pair of
the city and the optional `occasion` preference.  `placesOutcome` is the
outcome of the inner `PlacesAPI.searchPlaces` call made by
`findStylingServices`.  Only full results are ever stored in the cache.
The source's `cityData.shopping_areas` is undefined on the per-city arrays
of this rewrite, so `shopping_areas` is always `[]` in a full result. -/
def getTraditionalClothing (cache : Cache (String × Option String) FullClothingResult)
    (now : ℤ) (city : String) (preferences : Option String)
    (placesOutcome : Except JsError PlacesResult) :
    Except JsError
      (ClothingResult × Cache (String × Option String) FullClothingResult × Bool) :=
  let cacheKey := (city, preferences)
  let freshStep : Except JsError
      (ClothingResult × Cache (String × Option String) FullClothingResult × Bool) :=
    match clothingDatabase city with
    | none => .ok (.generic (getGenericClothingInfo city), cache, true)
    | some cityData =>
        let filteredClothing : List ClothingItem :=
          match preferences with
          | some occasion =>
              cityData.filter (fun item =>
                item.occasions.any (fun occ =>
                  jsIncludes (jsToLower occ) (jsToLower occasion)))
          | none => cityData
        let result : FullClothingResult :=
          { traditional := filteredClothing
            shopping_areas := []
            styling_services := findStylingServices placesOutcome
            rental_options := filteredClothing.filter (fun item => item.rental_available)
            cultural_context := getCulturalContext city }
        .ok (.full result, cache.set cacheKey ⟨result, now⟩, true)
  match cache cacheKey with
  | some cached =>
      if now - cached.timestamp < cacheTimeout then .ok (.full cached.data, cache, false)
      else freshStep
  | none => freshStep

end TraditionalClothingAPI

/-- A live places hit named `Red Fort` at `(28.6562, 77.2410)` (concrete
normalized place used to exercise the deduplication key). -/
def redFortHitA : Place :=
  { name := "Red Fort", address := "Netaji Subhash Marg, Lal Qila, Delhi"
    lat := 28.6562, lon := 77.2410, type_ := "attraction"
    category := "historical", importance := 0.7, source := "OpenStreetMap (LIVE)" }

/-- A second hit named `red fort` at the nearby point `(28.6561, 77.2411)`. -/
def redFortHitB : Place :=
  { name := "red fort", address := "Red Fort, Old Delhi"
    lat := 28.6561, lon := 77.2411, type_ := "attraction"
    category := "historical", importance := 0.6, source := "OpenStreetMap (LIVE)" }

/-- A raw geocoder record that survives the `searchPlaces` filter (truthy
`display_name`, `lat`, `lon`) whose `display_name` starts with a comma, so
its first comma-segment trims to the empty string. -/
def emptyNameRawPlace : RawPlace :=
  { display_name := ",Rome", lat := some 41.9, lon := some 12.5
    namedetailsName := none, name := "", type_ := "", class_ := ""
    importance := none }

/-- A well-behaved raw geocoder record (non-empty first comma-segment). -/
def redFortRawPlace : RawPlace :=
  { display_name := "Red Fort, Netaji Subhash Marg, Delhi"
    lat := some 28.6562, lon := some 77.2410
    namedetailsName := none, name := "", type_ := "", class_ := ""
    importance := some 0.7 }

/-! ## Theorems -/

/-- C1: for every provider cache (weather, places, news, clothing), a
request finding a cache entry whose age `now - storedAt` is strictly below
the provider's TTL returns the cached value unchanged, leaves the cache
untouched and issues no live call; a request finding an entry at least as
old as the TTL enters the live branch (attempts a fresh live call), for the
weather and news providers under their `enabled` flag (the places and
clothing providers have no disable flag). -/
theorem cache_ttl_correct :
    (∀ (enabled : Bool) (cache : Cache String WeatherData) (now : ℤ)
        (nowText city : String) (live : FetchOutcome RawWeather)
        (e : CacheEntry WeatherData),
        cache ("weather_" ++ city) = some e →
        now - e.timestamp < WeatherAPI.cacheTimeout →
        WeatherAPI.getCurrentWeather enabled cache now nowText city live =
          .ok (e.data, cache, false)) ∧
    (∀ (cache : Cache String WeatherData) (now : ℤ) (nowText city : String)
        (live : FetchOutcome RawWeather) (e : CacheEntry WeatherData),
        cache ("weather_" ++ city) = some e →
        WeatherAPI.cacheTimeout ≤ now - e.timestamp →
        ∃ r c, WeatherAPI.getCurrentWeather true cache now nowText city live =
          .ok (r, c, true)) ∧
    (∀ (cache : Cache String (List Place)) (now : ℤ) (city category : String)
        (world : String → FetchOutcome (List RawPlace)) (e : CacheEntry (List Place)),
        cache ("places_" ++ city ++ "_" ++ category) = some e →
        now - e.timestamp < PlacesAPI.cacheTimeout →
        PlacesAPI.searchPlaces cache now city category world =
          .ok (.live e.data, cache, false)) ∧
    (∀ (cache : Cache String (List Place)) (now : ℤ) (city category : String)
        (world : String → FetchOutcome (List RawPlace)) (e : CacheEntry (List Place)),
        cache ("places_" ++ city ++ "_" ++ category) = some e →
        PlacesAPI.cacheTimeout ≤ now - e.timestamp →
        ∃ r c, PlacesAPI.searchPlaces cache now city category world = .ok (r, c, true)) ∧
    (∀ (enabled : Bool) (cache : Cache String (List EventItem)) (now : ℤ)
        (city : String) (live : FetchOutcome (List RawArticle))
        (e : CacheEntry (List EventItem)),
        cache ("news_" ++ city) = some e →
        now - e.timestamp < NewsAPI.cacheTimeout →
        NewsAPI.getLocalEvents enabled cache now city live = .ok (e.data, cache, false)) ∧
    (∀ (cache : Cache String (List EventItem)) (now : ℤ) (city : String)
        (live : FetchOutcome (List RawArticle)) (e : CacheEntry (List EventItem)),
        cache ("news_" ++ city) = some e →
        NewsAPI.cacheTimeout ≤ now - e.timestamp →
        ∃ r c, NewsAPI.getLocalEvents true cache now city live = .ok (r, c, true)) ∧
    (∀ (cache : Cache (String × Option String) FullClothingResult) (now : ℤ)
        (city : String) (preferences : Option String)
        (placesOutcome : Except JsError PlacesResult)
        (e : CacheEntry FullClothingResult),
        cache (city, preferences) = some e →
        now - e.timestamp < TraditionalClothingAPI.cacheTimeout →
        TraditionalClothingAPI.getTraditionalClothing cache now city preferences
          placesOutcome = .ok (.full e.data, cache, false)) ∧
    (∀ (cache : Cache (String × Option String) FullClothingResult) (now : ℤ)
        (city : String) (preferences : Option String)
        (placesOutcome : Except JsError PlacesResult)
        (e : CacheEntry FullClothingResult),
        cache (city, preferences) = some e →
        TraditionalClothingAPI.cacheTimeout ≤ now - e.timestamp →
        ∃ r c, TraditionalClothingAPI.getTraditionalClothing cache now city preferences
          placesOutcome = .ok (r, c, true)) := by
  refine ⟨?_, ?_, ?_, ?_, ?_, ?_, ?_, ?_⟩
  · intro enabled cache now nowText city live e hc hlt
    simp only [WeatherAPI.getCurrentWeather, hc]
    rw [if_pos hlt]
  · intro cache now nowText city live e hc hge
    have hnlt : ¬ now - e.timestamp < WeatherAPI.cacheTimeout := by omega
    simp only [WeatherAPI.getCurrentWeather, hc]
    rw [if_neg hnlt]
    cases live <;> exact ⟨_, _, rfl⟩
  · intro cache now city category world e hc hlt
    simp only [PlacesAPI.searchPlaces, hc]
    rw [if_pos hlt]
  · intro cache now city category world e hc hge
    have hnlt : ¬ now - e.timestamp < PlacesAPI.cacheTimeout := by omega
    simp only [PlacesAPI.searchPlaces, hc]
    rw [if_neg hnlt]
    by_cases h : PlacesAPI.searchPlacesLive world city category = []
    · rw [if_neg (not_not_intro h)]
      exact ⟨_, _, rfl⟩
    · rw [if_pos h]
      exact ⟨_, _, rfl⟩
  · intro enabled cache now city live e hc hlt
    simp only [NewsAPI.getLocalEvents, hc]
    rw [if_pos hlt]
  · intro cache now city live e hc hge
    have hnlt : ¬ now - e.timestamp < NewsAPI.cacheTimeout := by omega
    simp only [NewsAPI.getLocalEvents, hc]
    rw [if_neg hnlt]
    cases live <;> exact ⟨_, _, rfl⟩
  · intro cache now city preferences placesOutcome e hc hlt
    simp only [TraditionalClothingAPI.getTraditionalClothing, hc]
    rw [if_pos hlt]
  · intro cache now city preferences placesOutcome e hc hge
    have hnlt : ¬ now - e.timestamp < TraditionalClothingAPI.cacheTimeout := by omega
    simp only [TraditionalClothingAPI.getTraditionalClothing, hc]
    rw [if_neg hnlt]
    cases h : TraditionalClothingAPI.clothingDatabase city <;> exact ⟨_, _, rfl⟩

/-- Witness for C1: a weather cache holding a zero-timestamped entry for
`tokyo`, queried at time 1 (well inside the 10-minute TTL), returns the
entry and does not touch the network even though the live call would throw. -/
theorem cache_ttl_correct_witness :
    WeatherAPI.getCurrentWeather true
      (fun k => if k = "weather_tokyo" then
        some ⟨WeatherAPI.getSimulatedWeather "now" "tokyo", 0⟩ else none)
      1 "now" "tokyo" .throws =
      .ok (WeatherAPI.getSimulatedWeather "now" "tokyo",
        (fun k => if k = "weather_tokyo" then
          some ⟨WeatherAPI.getSimulatedWeather "now" "tokyo", 0⟩ else none),
        false) :=
  cache_ttl_correct.1 true _ 1 "now" "tokyo" .throws
    ⟨WeatherAPI.getSimulatedWeather "now" "tokyo", 0⟩ rfl (by decide)

/-- C2: for every provider fetch operation, the cache is mutated only when
the live call succeeds with a usable result, and every failure path returns
the fallback value with the cache untouched: on a cache miss, a live call
that throws or returns a non-2xx status (weather, news), a disabled
provider (weather, news), an empty live pipeline result (places), or a city
absent from the database (clothing) all return the fallback and leave the
cache unchanged; conversely any call that returns a changed cache had a
successful live fetch (weather, news), a non-empty live result (places), or
a city present in the database (clothing) — so fallback values are never
stored. -/
theorem fallback_never_cached :
    (∀ (cache : Cache String WeatherData) (now : ℤ) (nowText city : String)
        (live : FetchOutcome RawWeather),
        cache ("weather_" ++ city) = none →
        live = .throws ∨ live = .notOk →
        WeatherAPI.getCurrentWeather true cache now nowText city live =
          .ok (WeatherAPI.getSimulatedWeather nowText city, cache, true)) ∧
    (∀ (cache : Cache String WeatherData) (now : ℤ) (nowText city : String)
        (live : FetchOutcome RawWeather),
        cache ("weather_" ++ city) = none →
        WeatherAPI.getCurrentWeather false cache now nowText city live =
          .ok (WeatherAPI.getSimulatedWeather nowText city, cache, false)) ∧
    (∀ (enabled : Bool) (cache : Cache String WeatherData) (now : ℤ)
        (nowText city : String) (live : FetchOutcome RawWeather)
        (r : WeatherData) (c : Cache String WeatherData) (b : Bool),
        WeatherAPI.getCurrentWeather enabled cache now nowText city live = .ok (r, c, b) →
        c ≠ cache → ∃ raw, live = .ok raw ∧ enabled = true) ∧
    (∀ (cache : Cache String (List Place)) (now : ℤ) (city category : String)
        (world : String → FetchOutcome (List RawPlace)),
        cache ("places_" ++ city ++ "_" ++ category) = none →
        PlacesAPI.searchPlacesLive world city category = [] →
        PlacesAPI.searchPlaces cache now city category world =
          .ok (.fallback (PlacesAPI.getFallbackPlaces city category), cache, true)) ∧
    (∀ (cache : Cache String (List Place)) (now : ℤ) (city category : String)
        (world : String → FetchOutcome (List RawPlace)) (r : PlacesResult)
        (c : Cache String (List Place)) (b : Bool),
        PlacesAPI.searchPlaces cache now city category world = .ok (r, c, b) →
        c ≠ cache → PlacesAPI.searchPlacesLive world city category ≠ []) ∧
    (∀ (cache : Cache String (List EventItem)) (now : ℤ) (city : String)
        (live : FetchOutcome (List RawArticle)),
        cache ("news_" ++ city) = none →
        live = .throws ∨ live = .notOk →
        NewsAPI.getLocalEvents true cache now city live =
          .ok (NewsAPI.getSimulatedEvents city, cache, true)) ∧
    (∀ (cache : Cache String (List EventItem)) (now : ℤ) (city : String)
        (live : FetchOutcome (List RawArticle)),
        cache ("news_" ++ city) = none →
        NewsAPI.getLocalEvents false cache now city live =
          .ok (NewsAPI.getSimulatedEvents city, cache, false)) ∧
    (∀ (enabled : Bool) (cache : Cache String (List EventItem)) (now : ℤ)
        (city : String) (live : FetchOutcome (List RawArticle))
        (r : List EventItem) (c : Cache String (List EventItem)) (b : Bool),
        NewsAPI.getLocalEvents enabled cache now city live = .ok (r, c, b) →
        c ≠ cache → ∃ raw, live = .ok raw ∧ enabled = true) ∧
    (∀ (cache : Cache (String × Option String) FullClothingResult) (now : ℤ)
        (city : String) (preferences : Option String)
        (placesOutcome : Except JsError PlacesResult),
        cache (city, preferences) = none →
        TraditionalClothingAPI.clothingDatabase city = none →
        TraditionalClothingAPI.getTraditionalClothing cache now city preferences
          placesOutcome =
          .ok (.generic (TraditionalClothingAPI.getGenericClothingInfo city), cache, true)) ∧
    (∀ (cache : Cache (String × Option String) FullClothingResult) (now : ℤ)
        (city : String) (preferences : Option String)
        (placesOutcome : Except JsError PlacesResult) (r : ClothingResult)
        (c : Cache (String × Option String) FullClothingResult) (b : Bool),
        TraditionalClothingAPI.getTraditionalClothing cache now city preferences
          placesOutcome = .ok (r, c, b) →
        c ≠ cache → ∃ items, TraditionalClothingAPI.clothingDatabase city = some items) := by
  refine ⟨?_, ?_, ?_, ?_, ?_, ?_, ?_, ?_, ?_, ?_⟩
  · intro cache now nowText city live hmiss hfail
    simp only [WeatherAPI.getCurrentWeather, hmiss]
    rcases hfail with h | h <;> (rw [h]; rfl)
  · intro cache now nowText city live hmiss
    simp only [WeatherAPI.getCurrentWeather, hmiss]
    rfl
  · intro enabled cache now nowText city live r c b hr hne
    simp only [WeatherAPI.getCurrentWeather] at hr
    split at hr
    · split at hr
      · cases hr; exact absurd rfl hne
      · split at hr
        · split at hr
          · cases hr; exact absurd rfl hne
          · cases hr; exact absurd rfl hne
          · exact ⟨_, rfl, by assumption⟩
        · cases hr; exact absurd rfl hne
    · split at hr
      · split at hr
        · cases hr; exact absurd rfl hne
        · cases hr; exact absurd rfl hne
        · exact ⟨_, rfl, by assumption⟩
      · cases hr; exact absurd rfl hne
  · intro cache now city category world hmiss hlive
    simp only [PlacesAPI.searchPlaces, hmiss]
    rw [if_neg (not_not_intro hlive)]
  · intro cache now city category world r c b hr hne
    simp only [PlacesAPI.searchPlaces] at hr
    split at hr
    · split at hr
      · cases hr; exact absurd rfl hne
      · split at hr
        · assumption
        · cases hr; exact absurd rfl hne
    · split at hr
      · assumption
      · cases hr; exact absurd rfl hne
  · intro cache now city live hmiss hfail
    simp only [NewsAPI.getLocalEvents, hmiss]
    rcases hfail with h | h <;> (rw [h]; rfl)
  · intro cache now city live hmiss
    simp only [NewsAPI.getLocalEvents, hmiss]
    rfl
  · intro enabled cache now city live r c b hr hne
    simp only [NewsAPI.getLocalEvents] at hr
    split at hr
    · split at hr
      · cases hr; exact absurd rfl hne
      · split at hr
        · split at hr
          · cases hr; exact absurd rfl hne
          · cases hr; exact absurd rfl hne
          · exact ⟨_, rfl, by assumption⟩
        · cases hr; exact absurd rfl hne
    · split at hr
      · split at hr
        · cases hr; exact absurd rfl hne
        · cases hr; exact absurd rfl hne
        · exact ⟨_, rfl, by assumption⟩
      · cases hr; exact absurd rfl hne
  · intro cache now city preferences placesOutcome hmiss hdb
    simp only [TraditionalClothingAPI.getTraditionalClothing, hmiss, hdb]
  · intro cache now city preferences placesOutcome r c b hr hne
    simp only [TraditionalClothingAPI.getTraditionalClothing] at hr
    split at hr
    · split at hr
      · cases hr; exact absurd rfl hne
      · split at hr
        · cases hr; exact absurd rfl hne
        · exact ⟨_, by assumption⟩
    · split at hr
      · cases hr; exact absurd rfl hne
      · exact ⟨_, by assumption⟩

/-- Witness for C2: on an empty weather cache with the live call throwing,
the provider returns the demo fallback and the cache is returned unchanged
(the fallback is not stored). -/
theorem fallback_never_cached_witness :
    WeatherAPI.getCurrentWeather true (fun _ => none) 5 "now" "paris" .throws =
      .ok (WeatherAPI.getSimulatedWeather "now" "paris", (fun _ => none), true) :=
  fallback_never_cached.1 (fun _ => none) 5 "now" "paris" .throws rfl (Or.inl rfl)

/-- C3: the provider fetch operations `getCurrentWeather`, `searchPlaces`
and `getLocalEvents` never let an exception escape to their caller: for
every cache state, clock, input and live-call outcome (including throwing
requests and non-2xx responses) they return a normal value, never an
`Except.error`. -/
theorem providers_never_throw :
    (∀ (enabled : Bool) (cache : Cache String WeatherData) (now : ℤ)
        (nowText city : String) (live : FetchOutcome RawWeather),
        ∃ v, WeatherAPI.getCurrentWeather enabled cache now nowText city live = .ok v) ∧
    (∀ (cache : Cache String (List Place)) (now : ℤ) (city category : String)
        (world : String → FetchOutcome (List RawPlace)),
        ∃ v, PlacesAPI.searchPlaces cache now city category world = .ok v) ∧
    (∀ (enabled : Bool) (cache : Cache String (List EventItem)) (now : ℤ)
        (city : String) (live : FetchOutcome (List RawArticle)),
        ∃ v, NewsAPI.getLocalEvents enabled cache now city live = .ok v) := by
  refine ⟨?_, ?_, ?_⟩
  · intro enabled cache now nowText city live
    simp only [WeatherAPI.getCurrentWeather]
    repeat' split
    all_goals exact ⟨_, rfl⟩
  · intro cache now city category world
    simp only [PlacesAPI.searchPlaces]
    repeat' split
    all_goals exact ⟨_, rfl⟩
  · intro enabled cache now city live
    simp only [NewsAPI.getLocalEvents]
    repeat' split
    all_goals exact ⟨_, rfl⟩

/-- A string append with a non-empty left part is non-empty. -/
theorem append_left_ne_empty (a b : String) (h : a ≠ "") : a ++ b ≠ "" := by
  intro he
  apply h
  have hd := congrArg String.data he
  rw [String.data_append] at hd
  rcases List.append_eq_nil.mp hd with ⟨h1, _⟩
  exact congrArg String.mk h1

/-- Every list stored in the curated fallback table is non-empty and each
of its entries has a non-empty name and the demo-data source marker. -/
theorem fallbackTable_sound (city : String)
    (f : String → Option (List FallbackPlace))
    (hf : PlacesAPI.fallbackPlacesTable city = some f) (category : String)
    (l : List FallbackPlace) (hl : f category = some l) :
    l ≠ [] ∧ ∀ p ∈ l, p.name ≠ "" ∧ p.source = "Demo Data (API failed)" := by
  unfold PlacesAPI.fallbackPlacesTable at hf
  split at hf <;> (try split at hf) <;> (try split at hf) <;> (try split at hf) <;>
    (try split at hf) <;> (try split at hf) <;> (try split at hf) <;> (try split at hf)
  all_goals (try exact Option.noConfusion hf)
  all_goals cases hf
  all_goals simp only [PlacesAPI.delhiFallbackPlaces, PlacesAPI.tokyoFallbackPlaces,
    PlacesAPI.mumbaiFallbackPlaces, PlacesAPI.parisFallbackPlaces,
    PlacesAPI.newyorkFallbackPlaces, PlacesAPI.londonFallbackPlaces,
    PlacesAPI.istanbulFallbackPlaces, PlacesAPI.barcelonaFallbackPlaces] at hl
  all_goals (split at hl <;> (try split at hl) <;> (try split at hl) <;> (try split at hl))
  all_goals (first | exact Option.noConfusion hl | (cases hl; decide))

/-- C4: for every `(city, category)` pair, the places lookup with every
live call failing still yields the non-empty, well-formed fallback list:
`getFallbackPlaces` never returns `[]` and every entry has a non-empty
name; with an empty cache and every query throwing or rejected,
`searchPlaces` returns exactly that fallback list; and for
`(tokyo, culture)` the curated fallback is the Senso-ji Temple / Meiji
Shrine / Tokyo National Museum list with every entry's source marked as
demo data. -/
theorem fallback_totality :
    (∀ city category, PlacesAPI.getFallbackPlaces city category ≠ []) ∧
    (∀ city category p, p ∈ PlacesAPI.getFallbackPlaces city category → p.name ≠ "") ∧
    (∀ (cache : Cache String (List Place)) (now : ℤ) (city category : String)
        (world : String → FetchOutcome (List RawPlace)),
        cache ("places_" ++ city ++ "_" ++ category) = none →
        (∀ q, world q = .throws ∨ world q = .notOk) →
        PlacesAPI.searchPlaces cache now city category world =
          .ok (.fallback (PlacesAPI.getFallbackPlaces city category), cache, true)) ∧
    ((PlacesAPI.getFallbackPlaces "tokyo" "culture").map (fun p => p.name) =
        ["Senso-ji Temple", "Meiji Shrine", "Tokyo National Museum"] ∧
      ∀ p ∈ PlacesAPI.getFallbackPlaces "tokyo" "culture",
        p.source = "Demo Data (API failed)") := by
  have hgeneric : ∀ city category p, p ∈ PlacesAPI.genericFallbackPlaces city category →
      p.name ≠ "" := by
    intro city category p hp
    simp only [PlacesAPI.genericFallbackPlaces, PlacesAPI.demoPlace, List.mem_cons,
      List.not_mem_nil, or_false] at hp
    rcases hp with rfl | rfl <;>
      exact append_left_ne_empty _ _ (append_left_ne_empty _ _
        (append_left_ne_empty _ _ (by decide)))
  refine ⟨?_, ?_, ?_, by decide, by decide⟩
  · intro city category h
    unfold PlacesAPI.getFallbackPlaces at h
    cases htab : PlacesAPI.fallbackPlacesTable city with
    | none =>
        rw [htab] at h
        exact (by simp [PlacesAPI.genericFallbackPlaces, PlacesAPI.demoPlace] :
          PlacesAPI.genericFallbackPlaces city category ≠ []) h
    | some f =>
        rw [htab] at h
        have h2 : (match f category with
            | some places => places
            | none => PlacesAPI.genericFallbackPlaces city category) = [] := h
        cases hcat : f category with
        | none =>
            rw [hcat] at h2
            exact (by simp [PlacesAPI.genericFallbackPlaces, PlacesAPI.demoPlace] :
              PlacesAPI.genericFallbackPlaces city category ≠ []) h2
        | some l =>
            rw [hcat] at h2
            exact (fallbackTable_sound city f htab category l hcat).1 h2
  · intro city category p hp
    unfold PlacesAPI.getFallbackPlaces at hp
    cases htab : PlacesAPI.fallbackPlacesTable city with
    | none =>
        rw [htab] at hp
        exact hgeneric city category p hp
    | some f =>
        rw [htab] at hp
        have hp2 : p ∈ (match f category with
            | some places => places
            | none => PlacesAPI.genericFallbackPlaces city category) := hp
        cases hcat : f category with
        | none =>
            rw [hcat] at hp2
            exact hgeneric city category p hp2
        | some l =>
            rw [hcat] at hp2
            exact (((fallbackTable_sound city f htab category l hcat).2 p) hp2).1
  · intro cache now city category world hmiss hfail
    have hempty : PlacesAPI.searchPlacesLive world city category = [] := by
      have hall : (((PlacesAPI.generateSearchQueries city category).map (fun query =>
          match world query with
          | .ok data => (data.filter PlacesAPI.keepRawPlace).map PlacesAPI.normalizePlace
          | .notOk => []
          | .throws => [])) : List (List Place)).flatten = [] := by
        rw [List.flatten_eq_nil_iff]
        intro l hl
        rcases List.mem_map.mp hl with ⟨q, _, rfl⟩
        rcases hfail q with h | h <;> simp [h]
      simp only [PlacesAPI.searchPlacesLive, hall]
      rfl
    simp only [PlacesAPI.searchPlaces, hmiss]
    rw [if_neg (not_not_intro hempty)]

/-- Witness for C4: for the unknown pair `(veniceXYZ, food)` with an empty
cache and every query throwing, `searchPlaces` returns the generic
fallback list unchanged. -/
theorem fallback_totality_witness :
    PlacesAPI.searchPlaces (fun _ => none) 0 "veniceXYZ" "food" (fun _ => .throws) =
      .ok (.fallback (PlacesAPI.getFallbackPlaces "veniceXYZ" "food"),
        (fun _ => none), true) :=
  fallback_totality.2.2.1 (fun _ => none) 0 "veniceXYZ" "food" (fun _ => .throws)
    rfl (fun _ => Or.inl rfl)

/-- C5: the query planner always appends `"{category} in {city}"` and
`"top {category} {city}"` after the curated-or-generic queries (even when
curated entries exist) and then truncates to the first 5 entries; in
particular, for the unknown city `veniceXYZ` with category `food` it
returns exactly the five generic food queries. -/
theorem query_planner_append_truncate :
    (∀ city category, PlacesAPI.generateSearchQueries city category =
        (PlacesAPI.searchQueriesBase city category ++
          [s! "{category} in {city}", s! "top {category} {city}"]).take 5) ∧
    PlacesAPI.generateSearchQueries "veniceXYZ" "food" =
      ["restaurants veniceXYZ", "food markets veniceXYZ", "local cuisine veniceXYZ",
        "best places to eat veniceXYZ", "food in veniceXYZ"] := by
  refine ⟨?_, by decide⟩
  intro city category
  rfl

/-- One pass of `removeDuplicates` leaves nothing for a second pass to
remove, for any starting set of seen keys. -/
theorem removeDuplicatesAux_idem (l : List Place) :
    ∀ seen, PlacesAPI.removeDuplicatesAux seen (PlacesAPI.removeDuplicatesAux seen l) =
      PlacesAPI.removeDuplicatesAux seen l := by
  induction l with
  | nil => intro seen; rfl
  | cons p rest ih =>
      intro seen
      by_cases h : PlacesAPI.dedupKey p ∈ seen
      · simp only [PlacesAPI.removeDuplicatesAux, if_pos h]
        exact ih seen
      · simp only [PlacesAPI.removeDuplicatesAux, if_neg h]
        rw [ih]

/-- C6: the deduplication step is idempotent — applying `removeDuplicates`
to its own output returns that output unchanged. -/
theorem removeDuplicates_idempotent (places : List Place) :
    PlacesAPI.removeDuplicates (PlacesAPI.removeDuplicates places) =
      PlacesAPI.removeDuplicates places :=
  removeDuplicatesAux_idem places []

/-- C7: the hits `Red Fort (28.6562, 77.2410)` and `red fort
(28.6561, 77.2411)` produce the identical deduplication key
`red fort_28656_77241` (lowercased name, coordinates times 1000 rounded),
so `removeDuplicates` collapses them to the first hit alone. -/
theorem dedup_rounding_collision :
    PlacesAPI.dedupKey redFortHitA = "red fort_28656_77241" ∧
    PlacesAPI.dedupKey redFortHitB = "red fort_28656_77241" ∧
    PlacesAPI.removeDuplicates [redFortHitA, redFortHitB] = [redFortHitA] := by
  have h1 : jsRound ((28.6562 : ℚ) * 1000) = 28656 := by
    rw [jsRound, Int.floor_eq_iff]; norm_num
  have h2 : jsRound ((77.2410 : ℚ) * 1000) = 77241 := by
    rw [jsRound, Int.floor_eq_iff]; norm_num
  have h3 : jsRound ((28.6561 : ℚ) * 1000) = 28656 := by
    rw [jsRound, Int.floor_eq_iff]; norm_num
  have h4 : jsRound ((77.2411 : ℚ) * 1000) = 77241 := by
    rw [jsRound, Int.floor_eq_iff]; norm_num
  have ha : PlacesAPI.dedupKey redFortHitA = "red fort_28656_77241" := by
    simp only [PlacesAPI.dedupKey, redFortHitA, h1, h2]
    decide
  have hb : PlacesAPI.dedupKey redFortHitB = "red fort_28656_77241" := by
    simp only [PlacesAPI.dedupKey, redFortHitB, h3, h4]
    decide
  refine ⟨ha, hb, ?_⟩
  simp only [PlacesAPI.removeDuplicates, PlacesAPI.removeDuplicatesAux, ha, hb]
  simp

/-- C8: the keyword intent classifier is total over the fixed label set —
for every input string it returns one of the nine intents and never fails;
a first matching specific rule yields confidence 0.9, the general fallback
yields confidence 0.7; the message `What\x27s the weather like?` classifies
as weather with confidence 0.9; and the weather rule takes priority over
later rules on a message matching several keyword sets. -/
theorem intent_classifier_total :
    (∀ message, (AIAPI.getSimulatedResponse message).intent ∈
        (["weather", "food", "culture", "shopping", "events", "clothing", "places",
          "local", "general"] : List String)) ∧
    (∀ message, ((AIAPI.getSimulatedResponse message).confidence = 0.9 ∧
        (AIAPI.getSimulatedResponse message).intent ≠ "general") ∨
      AIAPI.getSimulatedResponse message = ⟨"general", 0.7⟩) ∧
    AIAPI.getSimulatedResponse "What\x27s the weather like?" = ⟨"weather", 0.9⟩ ∧
    AIAPI.getSimulatedResponse "tourist food weather" = ⟨"weather", 0.9⟩ := by
  refine ⟨?_, ?_, rfl, rfl⟩
  · intro message
    simp only [AIAPI.getSimulatedResponse]
    split_ifs <;> simp
  · intro message
    simp only [AIAPI.getSimulatedResponse]
    split_ifs <;> first
      | exact Or.inr rfl
      | exact Or.inl ⟨by norm_num, by decide⟩

/-- Counterexample to C9 as stated: this record survives the filter
(truthy `display_name`, `lat` and `lon`), has no `namedetails.name`, and
its normalized name is the empty string, because the first comma-segment of
`display_name = ",Rome"` trims to `""` and `extractLocationName` returns it
without falling through to `name`/`type`/`Unnamed Location`. -/
theorem extract_name_empty_counterexample :
    PlacesAPI.keepRawPlace emptyNameRawPlace = true ∧
    PlacesAPI.extractLocationName emptyNameRawPlace = "" :=
  ⟨rfl, rfl⟩

/-- C9 (amended): for every raw record surviving the filter, the normalized
name follows the fallback chain `namedetails.name`, then the trimmed first
comma-segment of `display_name`, then `name`/`type`/`Unnamed Location` —
and it is non-empty provided the trimmed first comma-segment of
`display_name` is non-empty (without that proviso the claim fails, see the
counterexample). -/
theorem extract_name_nonempty_amended :
    ∀ place : RawPlace, PlacesAPI.keepRawPlace place = true →
      firstSegmentTrimmed place.display_name ≠ "" →
      PlacesAPI.extractLocationName place ≠ "" := by
  intro place hkeep hseg
  have hdn : place.display_name ≠ "" := by
    unfold PlacesAPI.keepRawPlace at hkeep
    simp only [Bool.and_eq_true, decide_eq_true_eq] at hkeep
    exact hkeep.1.1
  unfold PlacesAPI.extractLocationName
  cases hnd : place.namedetailsName with
  | none =>
      show (if place.display_name ≠ "" then firstSegmentTrimmed place.display_name
        else if place.name ≠ "" then place.name
        else if place.type_ ≠ "" then place.type_
        else "Unnamed Location") ≠ ""
      rw [if_pos hdn]
      exact hseg
  | some nd =>
      show (if nd ≠ "" then nd
        else if place.display_name ≠ "" then firstSegmentTrimmed place.display_name
        else if place.name ≠ "" then place.name
        else if place.type_ ≠ "" then place.type_
        else "Unnamed Location") ≠ ""
      by_cases hnd2 : nd = ""
      · rw [if_neg (not_not_intro hnd2), if_pos hdn]
        exact hseg
      · rw [if_pos hnd2]
        exact hnd2

/-- Witness for the amended C9: a surviving record whose `display_name`
first segment is `Red Fort` gets a non-empty normalized name. -/
theorem extract_name_nonempty_amended_witness :
    PlacesAPI.extractLocationName redFortRawPlace ≠ "" :=
  extract_name_nonempty_amended redFortRawPlace rfl (by decide)

/-- C10: for every city present in the clothing database and every
preferences argument, the freshly assembled clothing result has
`rental_options` exactly equal to the filter of the returned `traditional`
list by `rental_available` — hence a sublist of `traditional` in the same
relative order, containing no item whose `rental_available` is false. -/
theorem rental_options_filter :
    ∀ (cache : Cache (String × Option String) FullClothingResult) (now : ℤ)
      (city : String) (preferences : Option String)
      (placesOutcome : Except JsError PlacesResult),
      cache (city, preferences) = none →
      (TraditionalClothingAPI.clothingDatabase city).isSome = true →
      ∃ res c, TraditionalClothingAPI.getTraditionalClothing cache now city preferences
          placesOutcome = .ok (.full res, c, true) ∧
        res.rental_options = res.traditional.filter (fun item => item.rental_available) ∧
        res.rental_options.Sublist res.traditional ∧
        ∀ item ∈ res.rental_options, item.rental_available = true := by
  intro cache now city preferences placesOutcome hmiss hdb
  simp only [TraditionalClothingAPI.getTraditionalClothing, hmiss]
  cases hdbv : TraditionalClothingAPI.clothingDatabase city with
  | none => rw [hdbv] at hdb; simp at hdb
  | some cityData =>
      refine ⟨_, _, rfl, rfl, ?_, ?_⟩
      · exact List.filter_sublist _
      · intro item hitem
        exact (List.mem_filter.mp hitem).2

/-- Witness for C10: for `tokyo` with no preferences on an empty cache, the
assembled result satisfies the `rental_options` filter property. -/
theorem rental_options_filter_witness :
    ∃ res c, TraditionalClothingAPI.getTraditionalClothing (fun _ => none) 0 "tokyo"
        none (.ok (.live [])) = .ok (.full res, c, true) ∧
      res.rental_options = res.traditional.filter (fun item => item.rental_available) ∧
      res.rental_options.Sublist res.traditional ∧
      ∀ item ∈ res.rental_options, item.rental_available = true :=
  rental_options_filter (fun _ => none) 0 "tokyo" none (.ok (.live [])) rfl rfl

end FreeApis
